import Mathlib

/-!
Shallow embedding of the Pomodoro timer state machine from `src/App.js`.

The React component keeps its state in `useState` hooks (`settings`,
`currentMode`, `timeLeft`, `isRunning`, `completedSessions`, `totalSessions`,
`totalFocusTime`, `soundEnabled`).  Each handler reads the values captured by
its closure (the pre-call state) and issues a batch of `setX` calls, so every
handler is modelled as a pure function `AppState → AppState` that reads the
input state and produces the updated one.  Deferred side effects
(`setTimeout`-scheduled auto-start, toasts, sounds, localStorage writes) are
separate later events and are not part of the synchronous transition.
-/

namespace Pomodoro

/-- TIMER_MODES (App.js:25-29). -/
inductive TimerMode
  | work
  | shortBreak
  | longBreak
deriving DecidableEq, Repr

/-- The configuration object (App.js:31-40 shape). -/
structure Settings where
  workDuration : Nat
  shortBreakDuration : Nat
  longBreakDuration : Nat
  longBreakInterval : Nat
  autoStartBreaks : Bool
  autoStartWork : Bool
  soundEnabled : Bool
  darkMode : Bool
deriving DecidableEq, Repr

/-- DEFAULT_SETTINGS (App.js:31-40). -/
def DEFAULT_SETTINGS : Settings :=
  { workDuration := 25
    shortBreakDuration := 5
    longBreakDuration := 15
    longBreakInterval := 4
    autoStartBreaks := true
    autoStartWork := false
    soundEnabled := true
    darkMode := false }

/-- The component state relevant to the timer state machine
(the useState hooks of App, App.js:69-99). -/
structure AppState where
  settings : Settings
  currentMode : TimerMode
  timeLeft : Nat
  isRunning : Bool
  completedSessions : Nat
  totalSessions : Nat
  totalFocusTime : Nat
  soundEnabled : Bool
deriving DecidableEq, Repr

/-- handleTimerComplete (App.js:455-517).  The guard `if (!isRunning) return`
tests the closure-captured pre-call value.  In the WORK branch the code
increments `completedSessions` and `totalSessions`, adds `workDuration`
(minutes) to `totalFocusTime`, and picks the next mode from
`newCompletedSessions % settings.longBreakInterval === 0`; in the break branch
it returns to WORK at full duration.  The deferred
`setTimeout(() => setIsRunning(true), 1000)` auto-start is a later event and
not part of this synchronous transition. -/
def handleTimerComplete (s : AppState) : AppState :=
  if !s.isRunning then s
  else
    let s1 := { s with isRunning := false }
    match s.currentMode with
    | .work =>
      let newCompletedSessions := s.completedSessions + 1
      let s2 := { s1 with
        completedSessions := newCompletedSessions
        totalSessions := s1.totalSessions + 1
        totalFocusTime := s1.totalFocusTime + s.settings.workDuration }
      if newCompletedSessions % s.settings.longBreakInterval = 0 then
        { s2 with currentMode := .longBreak
                  timeLeft := s.settings.longBreakDuration * 60 }
      else
        { s2 with currentMode := .shortBreak
                  timeLeft := s.settings.shortBreakDuration * 60 }
    | _ =>
      { s1 with currentMode := .work
                timeLeft := s.settings.workDuration * 60 }

/-- One firing of the interval callback (App.js:421-452).  The interval is
armed only while `isRunning && timeLeft > 0`; the callback does
`prevTime <= 1 ? (clear interval; schedule handleTimerComplete; 0)
: prevTime - 1`.  The second component counts how many `handleTimerComplete`
invocations this firing schedules (0 or 1). -/
def tick (s : AppState) : AppState × Nat :=
  if s.isRunning ∧ 0 < s.timeLeft then
    if s.timeLeft ≤ 1 then ({ s with timeLeft := 0 }, 1)
    else ({ s with timeLeft := s.timeLeft - 1 }, 0)
  else (s, 0)

/-- Runs `n` tick firings, accumulating the number of scheduled completions. -/
def ticks : AppState → Nat → AppState × Nat
  | s, 0 => (s, 0)
  | s, n + 1 =>
    let p := ticks s n
    let q := tick p.1
    (q.1, p.2 + q.2)

/-- startTimer (App.js:520-522). -/
def startTimer (s : AppState) : AppState := { s with isRunning := true }

/-- pauseTimer (App.js:524-531). -/
def pauseTimer (s : AppState) : AppState := { s with isRunning := false }

/-- resetTimer (App.js:533-553).  `timeSpent = workDuration*60 - timeLeft` is
nonnegative whenever `timeLeft` does not exceed the full duration; Nat
subtraction truncates the (JS-negative) overshoot case to 0 minutes, which the
`minutesSpent > 0` guard discards in the source as well. -/
def resetTimer (s : AppState) : AppState :=
  let s1 :=
    if s.currentMode = .work ∧ s.isRunning then
      let timeSpent := s.settings.workDuration * 60 - s.timeLeft
      let minutesSpent := timeSpent / 60
      if 0 < minutesSpent then
        { s with totalFocusTime := s.totalFocusTime + minutesSpent }
      else s
    else s
  { s1 with isRunning := false
            currentMode := .work
            timeLeft := s.settings.workDuration * 60 }

/-- skipSession (App.js:555-558): `setIsRunning(false); handleTimerComplete()`.
The invoked `handleTimerComplete` closure still sees the pre-call `isRunning`,
so its guard tests the input state.  When the guard passes the body itself sets
`isRunning := false`; when it fails, `isRunning` was already false, so the
leading `setIsRunning(false)` changes nothing in either case. -/
def skipSession (s : AppState) : AppState :=
  handleTimerComplete s

/-- resetAllData (App.js:561-580), the branch where the user confirms:
clears storage and resets every piece of state to the defaults. -/
def resetAllData (_s : AppState) : AppState :=
  { settings := DEFAULT_SETTINGS
    currentMode := .work
    timeLeft := DEFAULT_SETTINGS.workDuration * 60
    isRunning := false
    completedSessions := 0
    totalSessions := 0
    totalFocusTime := 0
    soundEnabled := DEFAULT_SETTINGS.soundEnabled }

/-- getCurrentModeDuration (App.js:633-640), in seconds. -/
def getCurrentModeDuration (settings : Settings) (mode : TimerMode) : Nat :=
  match mode with
  | .work => settings.workDuration * 60
  | .shortBreak => settings.shortBreakDuration * 60
  | .longBreak => settings.longBreakDuration * 60

/-- Rounds a rational to the nearest IEEE-754 binary64 value (round half to
even), the rounding JS applies after every arithmetic operation.  For a
nonzero argument the magnitude is scaled by a power of two into the
significand range [2^52, 2^53), floored, and the fractional remainder decides
the direction; zero maps to zero.  Overflow and subnormals lie far outside
the magnitudes the timer arithmetic produces and are not modelled. -/
def roundToDouble (q : ℚ) : ℚ :=
  if q = 0 then 0
  else
    let e : ℤ := Int.log 2 |q| - 52
    let scaled : ℚ := |q| * 2 ^ (-e)
    let n0 : ℤ := ⌊scaled⌋
    let fr : ℚ := scaled - n0
    let n : ℤ :=
      if fr < 1 / 2 then n0
      else if 1 / 2 < fr then n0 + 1
      else if n0 % 2 = 0 then n0 else n0 + 1
    (if q < 0 then -1 else 1) * (n : ℚ) * 2 ^ e

/-- updateSettings (App.js:611-660).  The running-branch arithmetic
(`progress = (oldDuration - timeLeft) / oldDuration`,
`newTimeLeft = Math.max(1, Math.round(newDuration - progress * newDuration))`)
is JS double arithmetic: the operands (`oldDuration`, `newDuration`,
`timeLeft` and the integer difference `oldDuration - timeLeft`) are exactly
representable, and each of the division, the multiplication and the outer
subtraction is correctly rounded to binary64, modelled by `roundToDouble`.
`Math.round` itself is exact on its (binary64) argument and rounds half
toward +∞, which is Mathlib's `round` on the corresponding rational. -/
def updateSettings (newSettings : Settings) (s : AppState) : AppState :=
  let previousSettings := s.settings
  let s1 := { s with settings := newSettings }
  let s2 :=
    if !s.isRunning then
      { s1 with timeLeft := getCurrentModeDuration newSettings s.currentMode }
    else
      let oldDuration := getCurrentModeDuration previousSettings s.currentMode
      let newDuration := getCurrentModeDuration newSettings s.currentMode
      if oldDuration ≠ newDuration then
        let progress : ℚ :=
          roundToDouble (((oldDuration : ℚ) - (s.timeLeft : ℚ)) / (oldDuration : ℚ))
        let newTimeLeft : ℤ :=
          max 1 (round
            (roundToDouble ((newDuration : ℚ) -
              roundToDouble (progress * (newDuration : ℚ)))))
        { s1 with timeLeft := newTimeLeft.toNat }
      else s1
  { s2 with soundEnabled := newSettings.soundEnabled }

/-! ## Settings modal (SettingsModal component)

The numeric settings (the three durations and `longBreakInterval`) are edited
only through the plus/minus buttons (App.js:1185-1303), each of which calls
`adjustTime(key, delta)`; the remaining settings are boolean toggles.
-/

/-- The four numeric settings keys that `adjustTime` is called with. -/
inductive DurationKey
  | workDuration
  | shortBreakDuration
  | longBreakDuration
  | longBreakInterval
deriving DecidableEq, Repr, Fintype

/-- Reads the numeric field `prev[key]` of a settings object. -/
def getDuration (s : Settings) : DurationKey → Nat
  | .workDuration => s.workDuration
  | .shortBreakDuration => s.shortBreakDuration
  | .longBreakDuration => s.longBreakDuration
  | .longBreakInterval => s.longBreakInterval

/-- Writes the numeric field `key` of a settings object. -/
def setDuration (s : Settings) (k : DurationKey) (v : Nat) : Settings :=
  match k with
  | .workDuration => { s with workDuration := v }
  | .shortBreakDuration => { s with shortBreakDuration := v }
  | .longBreakDuration => { s with longBreakDuration := v }
  | .longBreakInterval => { s with longBreakInterval := v }

/-- adjustTime (App.js:1102-1107):
`tempSettings[key] := Math.max(1, Math.min(60, prev[key] + delta))`.
The delta can be negative (the minus buttons pass -1 or -5), so the sum is
computed in ℤ; the clamped result lies in [1, 60] and is stored back as ℕ. -/
def adjustTime (s : Settings) (k : DurationKey) (delta : ℤ) : Settings :=
  setDuration s k (max 1 (min 60 ((getDuration s k : ℤ) + delta))).toNat

/-- A whole modal editing session: the fold of a list of plus/minus button presses
over the initial `tempSettings` (which is the current settings). -/
def applyAdjustments (s : Settings) : List (DurationKey × ℤ) → Settings
  | [] => s
  | (k, d) :: rest => applyAdjustments (adjustTime s k d) rest

/-- All four numeric settings are in the UI's valid range: durations in
1-60 minutes and the long-break interval at least 1 (the source clamps it to
[1, 60] as well). -/
def SettingsInRange (s : Settings) : Prop :=
  ∀ k : DurationKey, 1 ≤ getDuration s k ∧ getDuration s k ≤ 60

instance : DecidablePred SettingsInRange := fun s =>
  inferInstanceAs (Decidable (∀ k, 1 ≤ getDuration s k ∧ getDuration s k ≤ 60))

/-! ## Startup and session restore

Persisted session snapshots are written by the save effect (App.js:125-132),
which always stores all three fields `{ mode: currentMode, timeLeft,
timestamp: Date.now() }`; `mode` is one of the TIMER_MODES strings and
`timestamp` a positive epoch value, so the truthiness guards
`sessionState.timestamp` and `sessionState.mode` in the restore effect hold
for every stored snapshot and only `timeLeft` can be falsy (zero).
-/

/-- A persisted `pomodoro-session` snapshot (App.js:126-130). -/
structure StoredSession where
  mode : TimerMode
  timeLeft : Nat
  timestamp : Nat
deriving DecidableEq, Repr

/-- Five minutes in milliseconds (App.js:139). -/
def fiveMinutes : Nat := 5 * 60 * 1000

/-- The mount-time restore effect (App.js:135-152): applies the stored mode
and timeLeft only when a snapshot exists, is younger than five minutes, and
has `timeLeft > 0` (`sessionState.timestamp` and `sessionState.mode` are
always truthy on stored snapshots, see above). -/
def restoreSession (now : Nat) (stored : Option StoredSession)
    (s : AppState) : AppState :=
  match stored with
  | none => s
  | some sessionState =>
    if now - sessionState.timestamp < fiveMinutes ∧ 0 < sessionState.timeLeft then
      { s with currentMode := sessionState.mode
               timeLeft := sessionState.timeLeft }
    else s

/-- The `currentMode` useState initial value (App.js:73-75):
`loadFromStorage(SESSION_STATE, { mode: WORK }).mode` — the stored mode is
used unconditionally whenever a snapshot exists, with no freshness check. -/
def initialCurrentMode (stored : Option StoredSession) : TimerMode :=
  match stored with
  | none => .work
  | some st => st.mode

/-- The `timeLeft` useState initial value (App.js:77-81):
`sessionState.timeLeft || storedSettings.workDuration * 60` — zero (or a
missing snapshot) is falsy and falls back to the full work duration; any
positive stored value is used unconditionally, with no freshness check. -/
def initialTimeLeft (stored : Option StoredSession)
    (storedSettings : Settings) : Nat :=
  match stored with
  | none => storedSettings.workDuration * 60
  | some st =>
    if st.timeLeft = 0 then storedSettings.workDuration * 60 else st.timeLeft

/-- The component state right after the useState initial values are computed
(App.js:69-99): settings and progress counters from storage, mode and
timeLeft from the snapshot as above, `isRunning := false`. -/
def initialAppState (storedSettings : Settings) (stored : Option StoredSession)
    (completedSessions totalSessions totalFocusTime : Nat) : AppState :=
  { settings := storedSettings
    currentMode := initialCurrentMode stored
    timeLeft := initialTimeLeft stored storedSettings
    isRunning := false
    completedSessions := completedSessions
    totalSessions := totalSessions
    totalFocusTime := totalFocusTime
    soundEnabled := storedSettings.soundEnabled }

/-- The state visible after startup: the useState initial values followed by
the mount-time restore effect, both reading the same stored snapshot. -/
def startupState (now : Nat) (storedSettings : Settings)
    (stored : Option StoredSession)
    (completedSessions totalSessions totalFocusTime : Nat) : AppState :=
  restoreSession now stored
    (initialAppState storedSettings stored completedSessions totalSessions
      totalFocusTime)

/-! ## Concrete states for the spec scenarios -/

/-- The spec scenario start: default settings, WORK, 1500 s remaining,
running, no completed sessions yet. -/
def scenarioStart : AppState :=
  { settings := DEFAULT_SETTINGS
    currentMode := .work
    timeLeft := 1500
    isRunning := true
    completedSessions := 0
    totalSessions := 0
    totalFocusTime := 0
    soundEnabled := true }

/-- Pressing start and letting the current interval expire: the completion
handler then fires on a running state. -/
def completeRunning (s : AppState) : AppState :=
  handleTimerComplete (startTimer s)

/-- The state after the n-th work-session completion of the spec scenario.
After the first completion the machine sits in a break, so each further work
completion first completes the break (back to WORK) and then the work
interval, both while running. -/
def afterCompletions : Nat → AppState
  | 0 => scenarioStart
  | 1 => handleTimerComplete scenarioStart
  | n + 2 => completeRunning (completeRunning (afterCompletions (n + 1)))

/-- The scenario settings with `workDuration` changed from 25 to 10. -/
def work10Settings : Settings := { DEFAULT_SETTINGS with workDuration := 10 }

/-- A paused variant of the scenario state. -/
def pausedDemo : AppState := { scenarioStart with isRunning := false }

/-- A running state two seconds before expiry. -/
def smallDemo : AppState := { scenarioStart with timeLeft := 2 }

/-- A running short break of 2 minutes (120 s) with 39 s left: the input at
which the double-precision rescale and the exact-rational rescale differ. -/
def cexState : AppState :=
  { settings := { DEFAULT_SETTINGS with shortBreakDuration := 2 }
    currentMode := .shortBreak
    timeLeft := 39
    isRunning := true
    completedSessions := 0
    totalSessions := 0
    totalFocusTime := 0
    soundEnabled := true }

/-- The same settings with the short break lengthened to 3 minutes (180 s). -/
def cexNewSettings : Settings := { DEFAULT_SETTINGS with shortBreakDuration := 3 }

/-! ## Helper lemmas on the tick loop -/

theorem tick_decrement (s : AppState) (hr : s.isRunning = true)
    (h : 1 < s.timeLeft) : tick s = ({ s with timeLeft := s.timeLeft - 1 }, 0) := by
  have hg : s.isRunning = true ∧ 0 < s.timeLeft := ⟨hr, by omega⟩
  simp only [tick]
  rw [if_pos hg, if_neg (by omega : ¬ s.timeLeft ≤ 1)]

theorem tick_expire (s : AppState) (hr : s.isRunning = true)
    (h0 : 0 < s.timeLeft) (h1 : s.timeLeft ≤ 1) :
    tick s = ({ s with timeLeft := 0 }, 1) := by
  have hg : s.isRunning = true ∧ 0 < s.timeLeft := ⟨hr, h0⟩
  simp only [tick]
  rw [if_pos hg, if_pos h1]

theorem tick_exhausted (s : AppState) (h : s.timeLeft = 0) : tick s = (s, 0) := by
  simp only [tick]
  rw [if_neg (by omega : ¬ (s.isRunning = true ∧ 0 < s.timeLeft))]

theorem ticks_run (s : AppState) (hr : s.isRunning = true) :
    ∀ n, n < s.timeLeft → ticks s n = ({ s with timeLeft := s.timeLeft - n }, 0) := by
  intro n
  induction n with
  | zero => intro _; rfl
  | succ m ih =>
    intro hm
    have hrec := ih (by omega)
    simp only [ticks, hrec]
    rw [tick_decrement { s with timeLeft := s.timeLeft - m }
      (show ({ s with timeLeft := s.timeLeft - m } : AppState).isRunning = true from hr)
      (show (1 : Nat) < s.timeLeft - m by omega)]
    rfl

theorem ticks_to_zero (s : AppState) (hr : s.isRunning = true)
    (h : 0 < s.timeLeft) : ticks s s.timeLeft = ({ s with timeLeft := 0 }, 1) := by
  obtain ⟨m, hm⟩ : ∃ m, s.timeLeft = m + 1 := ⟨s.timeLeft - 1, by omega⟩
  rw [hm]
  simp only [ticks, ticks_run s hr m (by omega)]
  rw [tick_expire { s with timeLeft := s.timeLeft - m }
    (show ({ s with timeLeft := s.timeLeft - m } : AppState).isRunning = true from hr)
    (show (0 : Nat) < s.timeLeft - m by omega)
    (show s.timeLeft - m ≤ 1 by omega)]
  rfl

theorem ticks_exhausted (s : AppState) (h : s.timeLeft = 0) :
    ∀ m, ticks s m = (s, 0) := by
  intro m
  induction m with
  | zero => rfl
  | succ k ih => simp only [ticks, ih, tick_exhausted s h]

theorem ticks_append (s : AppState) (m n : Nat) :
    ticks s (m + n) =
      ((ticks (ticks s m).1 n).1, (ticks s m).2 + (ticks (ticks s m).1 n).2) := by
  induction n with
  | zero => simp [ticks]
  | succ k ih =>
    show ticks s (m + k + 1) = _
    simp only [ticks, ih]
    rw [Nat.add_assoc]

/-! ## Helper lemmas on binary64 rounding -/

theorem roundToDouble_zero : roundToDouble 0 = 0 := by
  simp [roundToDouble]

theorem roundToDouble_eval (q : ℚ) (k n0 : ℤ) (r : ℚ)
    (hq : 0 < q)
    (hlow : (2 : ℚ) ^ k ≤ q) (hhigh : q < (2 : ℚ) ^ (k + 1))
    (hsplit : q * (2 : ℚ) ^ (52 - k) = (n0 : ℚ) + r)
    (hr0 : 0 ≤ r) (hr1 : r < 1) :
    roundToDouble q =
      ((if r < 1 / 2 then n0
        else if 1 / 2 < r then n0 + 1
        else if n0 % 2 = 0 then n0 else n0 + 1 : ℤ) : ℚ) * (2 : ℚ) ^ (k - 52) := by
  have habs : |q| = q := abs_of_pos hq
  have hlog : Int.log 2 q = k := by
    have hle : k ≤ Int.log 2 q :=
      (Int.zpow_le_iff_le_log (by norm_num) hq).mp (by exact_mod_cast hlow)
    have hlt : Int.log 2 q < k + 1 :=
      (Int.lt_zpow_iff_log_lt (by norm_num) hq).mp (by exact_mod_cast hhigh)
    omega
  have hfloor : ⌊(n0 : ℚ) + r⌋ = n0 := by
    rw [Int.floor_int_add, Int.floor_eq_zero_iff.mpr ⟨hr0, hr1⟩, add_zero]
  unfold roundToDouble
  rw [if_neg hq.ne']
  simp only [habs, hlog, neg_sub, hsplit, hfloor, add_sub_cancel_left]
  rw [if_neg (not_lt.mpr hq.le), one_mul]

/-! ## Helper lemmas on the completion handler -/

theorem handleTimerComplete_not_running (s : AppState) (hr : s.isRunning = false) :
    handleTimerComplete s = s := by
  simp [handleTimerComplete, hr]

theorem handleTimerComplete_work_long (s : AppState) (hr : s.isRunning = true)
    (hm : s.currentMode = .work)
    (hmod : (s.completedSessions + 1) % s.settings.longBreakInterval = 0) :
    handleTimerComplete s =
      { s with isRunning := false
               completedSessions := s.completedSessions + 1
               totalSessions := s.totalSessions + 1
               totalFocusTime := s.totalFocusTime + s.settings.workDuration
               currentMode := .longBreak
               timeLeft := s.settings.longBreakDuration * 60 } := by
  simp [handleTimerComplete, hr, hm, hmod]

theorem handleTimerComplete_work_short (s : AppState) (hr : s.isRunning = true)
    (hm : s.currentMode = .work)
    (hmod : (s.completedSessions + 1) % s.settings.longBreakInterval ≠ 0) :
    handleTimerComplete s =
      { s with isRunning := false
               completedSessions := s.completedSessions + 1
               totalSessions := s.totalSessions + 1
               totalFocusTime := s.totalFocusTime + s.settings.workDuration
               currentMode := .shortBreak
               timeLeft := s.settings.shortBreakDuration * 60 } := by
  simp [handleTimerComplete, hr, hm, hmod]

theorem handleTimerComplete_break (s : AppState) (hr : s.isRunning = true)
    (hm : s.currentMode ≠ .work) :
    handleTimerComplete s =
      { s with isRunning := false
               currentMode := .work
               timeLeft := s.settings.workDuration * 60 } := by
  cases he : s.currentMode with
  | work => exact absurd he hm
  | shortBreak => simp [handleTimerComplete, hr, he]
  | longBreak => simp [handleTimerComplete, hr, he]

theorem handleTimerComplete_set_timeLeft (s : AppState) (hr : s.isRunning = true)
    (x : Nat) : handleTimerComplete { s with timeLeft := x } = handleTimerComplete s := by
  have hr' : ({ s with timeLeft := x } : AppState).isRunning = true := hr
  by_cases hm : s.currentMode = .work
  · have hm' : ({ s with timeLeft := x } : AppState).currentMode = .work := hm
    by_cases hmod : (s.completedSessions + 1) % s.settings.longBreakInterval = 0
    · rw [handleTimerComplete_work_long { s with timeLeft := x } hr' hm' hmod,
        handleTimerComplete_work_long s hr hm hmod]
    · rw [handleTimerComplete_work_short { s with timeLeft := x } hr' hm' hmod,
        handleTimerComplete_work_short s hr hm hmod]
  · have hm' : ({ s with timeLeft := x } : AppState).currentMode ≠ .work := hm
    rw [handleTimerComplete_break { s with timeLeft := x } hr' hm',
      handleTimerComplete_break s hr hm]

/-! ## Claim theorems -/

/-- C1: when a session completes on a running state, the WORK branch
increments `completedSessions`, adds `workDuration` minutes to
`totalFocusTime`, and moves to LONG_BREAK at `longBreakDuration*60` when the
incremented count is divisible by `longBreakInterval`, otherwise to
SHORT_BREAK at `shortBreakDuration*60`; a break completion returns to WORK at
`workDuration*60` and changes no counters.  With the default configuration
(25/5/15, interval 4) and `completedSessions` starting at 0, completions 1-3
land in SHORT_BREAK at 300 s and completion 4 in LONG_BREAK at 900 s with
`completedSessions = 4`. -/
theorem handleTimerComplete_transition_spec :
    (∀ s : AppState, s.isRunning = true →
      (s.currentMode = .work →
        (handleTimerComplete s).completedSessions = s.completedSessions + 1 ∧
        (handleTimerComplete s).totalFocusTime =
          s.totalFocusTime + s.settings.workDuration ∧
        ((s.completedSessions + 1) % s.settings.longBreakInterval = 0 →
          (handleTimerComplete s).currentMode = .longBreak ∧
          (handleTimerComplete s).timeLeft = s.settings.longBreakDuration * 60) ∧
        ((s.completedSessions + 1) % s.settings.longBreakInterval ≠ 0 →
          (handleTimerComplete s).currentMode = .shortBreak ∧
          (handleTimerComplete s).timeLeft = s.settings.shortBreakDuration * 60)) ∧
      (s.currentMode ≠ .work →
        (handleTimerComplete s).currentMode = .work ∧
        (handleTimerComplete s).timeLeft = s.settings.workDuration * 60 ∧
        (handleTimerComplete s).completedSessions = s.completedSessions ∧
        (handleTimerComplete s).totalSessions = s.totalSessions ∧
        (handleTimerComplete s).totalFocusTime = s.totalFocusTime)) ∧
    ((afterCompletions 1).currentMode = .shortBreak ∧
      (afterCompletions 1).timeLeft = 300 ∧
      (afterCompletions 2).currentMode = .shortBreak ∧
      (afterCompletions 2).timeLeft = 300 ∧
      (afterCompletions 3).currentMode = .shortBreak ∧
      (afterCompletions 3).timeLeft = 300 ∧
      (afterCompletions 4).currentMode = .longBreak ∧
      (afterCompletions 4).timeLeft = 900 ∧
      (afterCompletions 4).completedSessions = 4) := by
  constructor
  · intro s hr
    constructor
    · intro hm
      by_cases hmod : (s.completedSessions + 1) % s.settings.longBreakInterval = 0
      · rw [handleTimerComplete_work_long s hr hm hmod]
        exact ⟨rfl, rfl, fun _ => ⟨rfl, rfl⟩, fun hc => absurd hmod hc⟩
      · rw [handleTimerComplete_work_short s hr hm hmod]
        exact ⟨rfl, rfl, fun hc => absurd hc hmod, fun _ => ⟨rfl, rfl⟩⟩
    · intro hm
      rw [handleTimerComplete_break s hr hm]
      exact ⟨rfl, rfl, rfl, rfl, rfl⟩
  · decide

/-- C1 witness: the universally quantified part applied to the concrete
scenario start state. -/
theorem handleTimerComplete_transition_spec_witness :
    (handleTimerComplete scenarioStart).completedSessions =
        scenarioStart.completedSessions + 1 ∧
      (handleTimerComplete scenarioStart).currentMode = .shortBreak ∧
      (handleTimerComplete scenarioStart).timeLeft =
        scenarioStart.settings.shortBreakDuration * 60 := by
  obtain ⟨hcs, -, -, hshort⟩ :=
    (handleTimerComplete_transition_spec.1 scenarioStart rfl).1 rfl
  obtain ⟨hmode, htime⟩ := hshort (by decide)
  exact ⟨hcs, hmode, htime⟩

/-- C2: while running with more than one second left, a tick decrements
`timeLeft` by exactly one and schedules no completion; a tick firing with
`timeLeft ≤ 1` (it can only fire with `timeLeft = 1`) sets `timeLeft` to 0 and
schedules exactly one completion; and from any running state — in particular
from a full `duration*60` for any configuration with a positive duration —
running the interval `timeLeft + m` times ends at `timeLeft = 0` with exactly
one scheduled completion, never two for the same expiry. -/
theorem tick_countdown_spec :
    (∀ s : AppState, s.isRunning = true → 1 < s.timeLeft →
      tick s = ({ s with timeLeft := s.timeLeft - 1 }, 0)) ∧
    (∀ s : AppState, s.isRunning = true → 0 < s.timeLeft → s.timeLeft ≤ 1 →
      tick s = ({ s with timeLeft := 0 }, 1)) ∧
    (∀ (s : AppState) (m : Nat), s.isRunning = true → 0 < s.timeLeft →
      ticks s (s.timeLeft + m) = ({ s with timeLeft := 0 }, 1)) ∧
    (∀ (cfg : Settings) (mode : TimerMode) (cs ts tf : Nat) (snd : Bool),
      0 < getCurrentModeDuration cfg mode →
      ticks
        { settings := cfg, currentMode := mode
          timeLeft := getCurrentModeDuration cfg mode, isRunning := true
          completedSessions := cs, totalSessions := ts, totalFocusTime := tf
          soundEnabled := snd }
        (getCurrentModeDuration cfg mode) =
        ({ settings := cfg, currentMode := mode, timeLeft := 0
           isRunning := true, completedSessions := cs, totalSessions := ts
           totalFocusTime := tf, soundEnabled := snd }, 1)) := by
  refine ⟨tick_decrement, tick_expire, ?_, ?_⟩
  · intro s m hr ht
    have h1 : ticks s s.timeLeft = ({ s with timeLeft := 0 }, 1) :=
      ticks_to_zero s hr ht
    have h2 : ticks ({ s with timeLeft := 0 } : AppState) m =
        ({ s with timeLeft := 0 }, 0) :=
      ticks_exhausted _ rfl m
    rw [ticks_append, h1]
    show ((ticks ({ s with timeLeft := 0 } : AppState) m).1,
      1 + (ticks ({ s with timeLeft := 0 } : AppState) m).2) = _
    rw [h2]
    rfl
  · intro cfg mode cs ts tf snd hd
    exact ticks_to_zero _ rfl hd

/-- C2 witness: the countdown property applied to a concrete running state
two seconds before expiry, with one extra tick after the expiry. -/
theorem tick_countdown_spec_witness :
    ticks smallDemo (smallDemo.timeLeft + 1) = ({ smallDemo with timeLeft := 0 }, 1) :=
  tick_countdown_spec.2.2.1 smallDemo 1 rfl (by decide)

/-- C5: from any running state with time remaining, skipping produces exactly
the state that the natural tick-to-zero expiry followed by the completion
handler produces — the full post-states coincide, so in particular the next
mode and next remaining time are identical. -/
theorem skipSession_matches_natural_expiry (s : AppState)
    (hr : s.isRunning = true) (ht : 0 < s.timeLeft) :
    skipSession s = handleTimerComplete (ticks s s.timeLeft).1 := by
  have h1 : ticks s s.timeLeft = ({ s with timeLeft := 0 }, 1) :=
    ticks_to_zero s hr ht
  rw [h1]
  show skipSession s = handleTimerComplete { s with timeLeft := 0 }
  rw [handleTimerComplete_set_timeLeft s hr 0]
  rfl

/-- C5 witness: skip agrees with natural expiry on a concrete running state. -/
theorem skipSession_matches_natural_expiry_witness :
    skipSession smallDemo = handleTimerComplete (ticks smallDemo smallDemo.timeLeft).1 :=
  skipSession_matches_natural_expiry smallDemo rfl (by decide)

/-- C7: resetting always lands in WORK at `workDuration*60` and not running,
and the minutes credited to `totalFocusTime` are exactly
`floor((workDuration*60 - timeLeft)/60)` when the prior state was a running
WORK session and zero otherwise. -/
theorem resetTimer_spec (s : AppState) :
    (resetTimer s).isRunning = false ∧
    (resetTimer s).currentMode = .work ∧
    (resetTimer s).timeLeft = s.settings.workDuration * 60 ∧
    (resetTimer s).totalFocusTime = s.totalFocusTime +
      (if s.currentMode = .work ∧ s.isRunning = true
        then (s.settings.workDuration * 60 - s.timeLeft) / 60 else 0) := by
  simp only [resetTimer]
  split_ifs with h1 h2
  · exact ⟨trivial, trivial, trivial, by trivial⟩
  · refine ⟨trivial, trivial, trivial, ?_⟩
    show s.totalFocusTime =
      s.totalFocusTime + (s.settings.workDuration * 60 - s.timeLeft) / 60
    omega
  · exact ⟨trivial, trivial, trivial, by trivial⟩

/-- C7 witness: the reset specification applied to the concrete running
scenario state (no hypotheses in the theorem, witness instantiates it). -/
theorem resetTimer_spec_witness :
    (resetTimer scenarioStart).currentMode = .work ∧
      (resetTimer scenarioStart).timeLeft = 1500 :=
  ⟨(resetTimer_spec scenarioStart).2.1, (resetTimer_spec scenarioStart).2.2.1⟩

/-- C8: `totalFocusTime` (a ℕ, hence never negative) is non-decreasing under
every state-machine operation — tick, completion, start, pause, skip, reset
and settings update — and the explicit reset-all-data action sets it to 0. -/
theorem totalFocusTime_monotone (s : AppState) :
    s.totalFocusTime ≤ ((tick s).1).totalFocusTime ∧
    s.totalFocusTime ≤ (handleTimerComplete s).totalFocusTime ∧
    s.totalFocusTime ≤ (startTimer s).totalFocusTime ∧
    s.totalFocusTime ≤ (pauseTimer s).totalFocusTime ∧
    s.totalFocusTime ≤ (skipSession s).totalFocusTime ∧
    s.totalFocusTime ≤ (resetTimer s).totalFocusTime ∧
    (∀ newSettings : Settings,
      s.totalFocusTime ≤ (updateSettings newSettings s).totalFocusTime) ∧
    (resetAllData s).totalFocusTime = 0 := by
  have hcomplete : s.totalFocusTime ≤ (handleTimerComplete s).totalFocusTime := by
    cases hr : s.isRunning with
    | false => rw [handleTimerComplete_not_running s hr]
    | true =>
      by_cases hm : s.currentMode = .work
      · by_cases hmod : (s.completedSessions + 1) % s.settings.longBreakInterval = 0
        · rw [handleTimerComplete_work_long s hr hm hmod]
          exact Nat.le_add_right _ _
        · rw [handleTimerComplete_work_short s hr hm hmod]
          exact Nat.le_add_right _ _
      · rw [handleTimerComplete_break s hr hm]
  refine ⟨?_, hcomplete, Nat.le_refl _, Nat.le_refl _, hcomplete, ?_, ?_, rfl⟩
  · simp only [tick]
    split_ifs <;> exact Nat.le_refl _
  · simp only [resetTimer]
    split_ifs
    · exact Nat.le_add_right _ _
    · exact Nat.le_refl _
    · exact Nat.le_refl _
  · intro newSettings
    simp only [updateSettings]
    split_ifs <;> exact Nat.le_refl _

/-- C9: while the timer is paused, skipping is a complete no-op — the
completion handler returns early, so the whole state (mode, time left and all
counters) is unchanged. -/
theorem skipSession_noop_when_paused (s : AppState) (hr : s.isRunning = false) :
    skipSession s = s :=
  handleTimerComplete_not_running s hr

/-- C9 witness: skipping the concrete paused state changes nothing. -/
theorem skipSession_noop_when_paused_witness :
    skipSession pausedDemo = pausedDemo :=
  skipSession_noop_when_paused pausedDemo rfl

/-- C10: the mount-time restore effect applies a stored snapshot exactly when
it is fresh (younger than five minutes) and has `timeLeft > 0` (its mode and
timestamp, always written by the save effect, are always truthy); a snapshot
with `timeLeft = 0` is never applied, even when fresh. -/
theorem restoreSession_guard_spec :
    (∀ (now : Nat) (snap : StoredSession) (s : AppState),
      now - snap.timestamp < fiveMinutes → 0 < snap.timeLeft →
      restoreSession now (some snap) s =
        { s with currentMode := snap.mode, timeLeft := snap.timeLeft }) ∧
    (∀ (now : Nat) (snap : StoredSession) (s : AppState),
      snap.timeLeft = 0 → restoreSession now (some snap) s = s) := by
  constructor
  · intro now snap s h1 h2
    simp only [restoreSession]
    rw [if_pos ⟨h1, h2⟩]
  · intro now snap s h
    simp only [restoreSession]
    rw [if_neg
      (by omega : ¬(now - snap.timestamp < fiveMinutes ∧ 0 < snap.timeLeft))]

/-- C10 witness: a fresh snapshot with zero remaining time is not applied. -/
theorem restoreSession_guard_spec_witness :
    restoreSession 0 (some ⟨TimerMode.work, 0, 0⟩) scenarioStart = scenarioStart :=
  restoreSession_guard_spec.2 0 ⟨TimerMode.work, 0, 0⟩ scenarioStart rfl

/-- C3: evaluating the startup path on a snapshot 10 minutes old (timestamp 0,
now = 600000 ms) shows the stale snapshot is NOT ignored — the useState
initial values read it unconditionally, so startup lands in SHORT_BREAK with
120 s instead of the claimed default WORK at `workDuration*60 = 1500`; a
2-minute-old snapshot (timestamp 480000) is restored verbatim as claimed. -/
theorem staleSessionSnapshot_used_at_startup :
    (startupState 600000 DEFAULT_SETTINGS (some ⟨.shortBreak, 120, 0⟩) 0 0 0).currentMode =
        .shortBreak ∧
    (startupState 600000 DEFAULT_SETTINGS (some ⟨.shortBreak, 120, 0⟩) 0 0 0).timeLeft = 120 ∧
    (startupState 600000 DEFAULT_SETTINGS (some ⟨.shortBreak, 120, 480000⟩) 0 0 0).currentMode =
        .shortBreak ∧
    (startupState 600000 DEFAULT_SETTINGS (some ⟨.shortBreak, 120, 480000⟩) 0 0 0).timeLeft =
        120 := by
  decide

theorem getDuration_setDuration (s : Settings) (k : DurationKey) (v : Nat) :
    getDuration (setDuration s k v) k = v := by
  cases k <;> rfl

theorem getDuration_setDuration_ne (s : Settings) (k k' : DurationKey) (v : Nat)
    (h : k ≠ k') : getDuration (setDuration s k v) k' = getDuration s k' := by
  cases k <;> cases k' <;> first | rfl | exact absurd rfl h

theorem adjustTime_in_range (s : Settings) (k : DurationKey) (delta : ℤ) :
    1 ≤ getDuration (adjustTime s k delta) k ∧
      getDuration (adjustTime s k delta) k ≤ 60 := by
  unfold adjustTime
  rw [getDuration_setDuration]
  have h1 : (1 : ℤ) ≤ max 1 (min 60 ((getDuration s k : ℤ) + delta)) :=
    le_max_left _ _
  have h2 : max 1 (min 60 ((getDuration s k : ℤ) + delta)) ≤ 60 :=
    max_le (by norm_num) (min_le_left _ _)
  omega

/-- C4: the settings UI clamps every numeric adjustment into the valid range
— `adjustTime` always lands in [1, 60] whatever the previous value and delta
(out-of-range input is clamped, not rejected) — and therefore any sequence of
button presses starting from in-range settings keeps all three durations in
1-60 minutes and the long-break interval at least 1, so no out-of-range
configuration is ever applied. -/
theorem adjustTime_clamp_spec :
    (∀ (s : Settings) (k : DurationKey) (delta : ℤ),
      1 ≤ getDuration (adjustTime s k delta) k ∧
        getDuration (adjustTime s k delta) k ≤ 60) ∧
    (∀ (s : Settings) (presses : List (DurationKey × ℤ)),
      SettingsInRange s → SettingsInRange (applyAdjustments s presses)) := by
  refine ⟨adjustTime_in_range, ?_⟩
  intro s presses
  induction presses generalizing s with
  | nil => exact fun h => h
  | cons p rest ih =>
    intro h
    obtain ⟨k, d⟩ := p
    apply ih
    intro k'
    by_cases he : k = k'
    · subst he
      exact adjustTime_in_range s k d
    · unfold adjustTime
      rw [getDuration_setDuration_ne _ _ _ _ he]
      exact h k'

/-- C4 witness: a wildly out-of-range pair of button presses starting from the
default settings still yields an in-range configuration. -/
theorem adjustTime_clamp_spec_witness :
    SettingsInRange (applyAdjustments DEFAULT_SETTINGS
      [(DurationKey.workDuration, 100), (DurationKey.shortBreakDuration, -99)]) :=
  adjustTime_clamp_spec.2 DEFAULT_SETTINGS
    [(DurationKey.workDuration, 100), (DurationKey.shortBreakDuration, -99)]
    (by decide)

theorem roundToDouble_progress :
    roundToDouble ((27 : ℚ) / 40) = 6079859496950170 * (2 : ℚ) ^ ((-53) : ℤ) := by
  have h := roundToDouble_eval ((27 : ℚ) / 40) (-1) 6079859496950169 (3 / 5)
    (by norm_num) (by norm_num) (by norm_num) (by norm_num) (by norm_num) (by norm_num)
  rw [h]
  norm_num

theorem roundToDouble_product :
    roundToDouble (6079859496950170 * (2 : ℚ) ^ ((-53) : ℤ) * 180) =
      8549802417586177 * (2 : ℚ) ^ ((-46) : ℤ) := by
  have h := roundToDouble_eval (6079859496950170 * (2 : ℚ) ^ ((-53) : ℤ) * 180)
    6 8549802417586176 (9 / 16)
    (by norm_num) (by norm_num) (by norm_num) (by norm_num) (by norm_num) (by norm_num)
  rw [h]
  norm_num

theorem roundToDouble_difference :
    roundToDouble (180 - 8549802417586177 * (2 : ℚ) ^ ((-46) : ℤ)) =
      4116571534393343 * (2 : ℚ) ^ ((-46) : ℤ) := by
  have h := roundToDouble_eval (180 - 8549802417586177 * (2 : ℚ) ^ ((-46) : ℤ))
    5 8233143068786686 0
    (by norm_num) (by norm_num) (by norm_num) (by norm_num) (by norm_num) (by norm_num)
  rw [h]
  norm_num

theorem roundToDouble_600 : roundToDouble (600 : ℚ) = 600 := by
  have h := roundToDouble_eval 600 9 5277655813324800 0
    (by norm_num) (by norm_num) (by norm_num) (by norm_num) (by norm_num) (by norm_num)
  rw [h]
  norm_num

theorem updateSettings_cex_timeLeft :
    (updateSettings cexNewSettings cexState).timeLeft = 58 := by
  norm_num [updateSettings, cexState, cexNewSettings, DEFAULT_SETTINGS,
    getCurrentModeDuration]
  rw [roundToDouble_progress, roundToDouble_product, roundToDouble_difference]
  norm_num [round_eq]
  rfl

/-- C6 counterexample: at a running 2-minute short break with 39 s left,
lengthened to 3 minutes (oldDuration = 120 s, newDuration = 180 s), the code
computes 58 s — the binary64 evaluation of `180 - (81/120)*180` is
58.49999999999999289…, which `Math.round` takes to 58 — while the claimed
exact formula `round(newDuration*(1 - elapsedFraction))` clamped at 1 gives
`round(58.5) = 59`. -/
theorem updateSettings_exact_rescale_counterexample :
    (updateSettings cexNewSettings cexState).timeLeft = 58 ∧
    (max 1 (round
      ((getCurrentModeDuration cexNewSettings cexState.currentMode : ℚ) *
        (1 - ((getCurrentModeDuration cexState.settings cexState.currentMode : ℚ) -
            (cexState.timeLeft : ℚ)) /
          (getCurrentModeDuration cexState.settings cexState.currentMode : ℚ))))).toNat
      = 59 := by
  refine ⟨updateSettings_cex_timeLeft, ?_⟩
  norm_num [cexState, cexNewSettings, DEFAULT_SETTINGS, getCurrentModeDuration,
    round_eq]
  rfl

/-- C6 (amended): a settings update on a stopped timer resets `timeLeft` to
the new duration of the current mode; on a running timer whose current-mode
duration changed, `timeLeft` becomes `Math.round` of the IEEE-754 binary64
evaluation of `newDuration - progress*newDuration` — each operation correctly
rounded, with `progress` the binary64 quotient `(oldDuration - timeLeft) /
oldDuration` — clamped to at least 1 second; this equals the exact
`round(newDuration*(1 - elapsedFraction))` except where double rounding
crosses a half-integer boundary.  Changing `workDuration` from 25 to 10 while
running with `timeLeft = 1500` still yields 600. -/
theorem updateSettings_double_rescale_spec :
    (∀ (newSettings : Settings) (s : AppState), s.isRunning = false →
      (updateSettings newSettings s).timeLeft =
        getCurrentModeDuration newSettings s.currentMode) ∧
    (∀ (newSettings : Settings) (s : AppState), s.isRunning = true →
      getCurrentModeDuration s.settings s.currentMode ≠
        getCurrentModeDuration newSettings s.currentMode →
      (updateSettings newSettings s).timeLeft =
        (max 1 (round (roundToDouble
          ((getCurrentModeDuration newSettings s.currentMode : ℚ) -
            roundToDouble
              (roundToDouble
                (((getCurrentModeDuration s.settings s.currentMode : ℚ) -
                    (s.timeLeft : ℚ)) /
                  (getCurrentModeDuration s.settings s.currentMode : ℚ)) *
                (getCurrentModeDuration newSettings s.currentMode : ℚ)))))).toNat) ∧
    (updateSettings work10Settings scenarioStart).timeLeft = 600 := by
  refine ⟨?_, ?_, ?_⟩
  · intro newSettings s hr
    simp only [updateSettings]
    rw [if_pos (by simp [hr] : (!s.isRunning) = true)]
  · intro newSettings s hr hne
    simp only [updateSettings]
    rw [if_neg (by simp [hr] : ¬(!s.isRunning) = true), if_pos hne]
  · norm_num [updateSettings, scenarioStart, work10Settings, DEFAULT_SETTINGS,
      getCurrentModeDuration]
    rw [roundToDouble_zero]
    norm_num [roundToDouble_zero, roundToDouble_600, round_eq]
    rfl

/-- C6 witness: the stopped-timer branch applied to the concrete paused
state. -/
theorem updateSettings_double_rescale_spec_witness :
    (updateSettings DEFAULT_SETTINGS pausedDemo).timeLeft =
      getCurrentModeDuration DEFAULT_SETTINGS pausedDemo.currentMode :=
  updateSettings_double_rescale_spec.1 DEFAULT_SETTINGS pausedDemo rfl

end Pomodoro
